import Mathlib

/-!
Verification development for the `unhcr_sites` repository (`main.py`).

The program fetches point and polygon geodata from a remote feature
service, buffers points into polygons, merges them per country, lets a
user select features by display label, and exports a selected subset as
GeoJSON.  We shallowly embed the data model (features, feature
collections, property dictionaries) and the operations
(`list_countries`, `query_points`, `query_polygons`, `gen_polygons`,
`process_country`, the display/export renaming and the export block),
with the remote service and the external geometry library abstracted as
parameters, and prove the specification's claims about them.
-/

/-- Property mappings of GeoJSON features: a python `dict` with string
keys, modelled as an association list (python dicts have unique keys and
preserve insertion order; mapping equality ignores order). -/
abbrev Props := List (String × String)

/-- Python `k in props` (dict membership test). -/
def dcontains (p : Props) (k : String) : Bool :=
  p.any (fun kv => kv.1 == k)

/-- Python `props[k]` lookup, `none` when the key is absent. -/
def dget (p : Props) (k : String) : Option String :=
  (p.find? (fun kv => kv.1 == k)).map (fun kv => kv.2)

/-- Python `props[k] = v`: update in place when the key is present,
append at the end otherwise. -/
def dset (p : Props) (k v : String) : Props :=
  if dcontains p k then p.map (fun kv => if kv.1 = k then (k, v) else kv)
  else p ++ [(k, v)]

/-- Python `props.pop(k)`'s removal effect. -/
def derase (p : Props) (k : String) : Props :=
  p.filter (fun kv => kv.1 != k)

/-- Python `if old in props: props[new] = props.pop(old)` — the one-key
rename step used by both the display and the export renaming in
`main.py`. -/
def renameKey (p : Props) (old new : String) : Props :=
  if dcontains p old then
    match dget p old with
    | some v => dset (derase p old) new v
    | none => p
  else p

/-- Two property mappings are equal as mappings (key-for-key), the
notion of equality of python dicts. -/
def propsEquiv (p q : Props) : Prop :=
  ∀ k, dget p k = dget q k

/-! ## Data model: features, collections, service responses, effects -/

/-- GeoJSON geometries as they occur in the program (coordinates in
longitude/latitude order; numbers modelled as rationals). -/
inductive Geometry where
  | point (coords : List ℚ)
  | polygon (rings : List (List (List ℚ)))
  | multiPolygon (polys : List (List (List (List ℚ))))
deriving DecidableEq

/-- One GeoJSON feature: a geometry plus a property mapping. -/
structure Feature where
  geometry : Geometry
  properties : Props
deriving DecidableEq

/-- A GeoJSON-like dict as handled by `main.py`: the `features` key may
be absent (`none`), and the code adds a top-level `feature_type` tag to
service results. -/
structure FC where
  features? : Option (List Feature)
  feature_type : Option String
deriving DecidableEq

/-- The remote feature service's behaviour on one query: either the
request raises `requests.RequestException` (transport error, or non-2xx
via `raise_for_status`), or it yields a parsed GeoJSON body. -/
inductive Resp where
  | failure
  | success (body : FC)
deriving DecidableEq

/-- Python exceptions escaping a function boundary (here only
`KeyError`, from subscripting a dict at a missing key). -/
inductive Err where
  | keyError (key : String)
deriving DecidableEq

/-- Observable side effects: streamlit widgets (user-visible) versus
console prints, and file writes. -/
inductive Effect where
  | stError (msg : String)
  | stSuccess (msg : String)
  | consolePrint (msg : String)
  | fileWrite (path : String)
deriving DecidableEq

/-! ## Feature service client (`list_countries`, `query_points`,
`query_polygons`) -/

/-- Python string slicing `s[:3]` (at most the first 3 characters). -/
def pyTake3 (s : String) : String := (s.toList.take 3).asString

/-- Python `sorted(list(set(xs)))`: the increasingly sorted enumeration
of the distinct elements of `xs`. -/
def pySortedSet (xs : List String) : List String :=
  xs.dedup.insertionSort (fun a b => a ≤ b)

/-- The comprehension `[item["properties"]["site_code"] for item in fs]`:
raises `KeyError` at the first feature without a `site_code` property. -/
def siteCodeList : List Feature → Except Err (List String)
  | [] => .ok []
  | f :: rest =>
    match dget f.properties "site_code" with
    | none => .error (.keyError "site_code")
    | some v =>
      match siteCodeList rest with
      | .error e => .error e
      | .ok vs => .ok (v :: vs)

/-- `extract_site_codes` from `main.py` (uses `.get("features", [])`). -/
def extract_site_codes (country_data : FC) : Except Err (List String) :=
  siteCodeList (country_data.features?.getD [])

/-- `list_countries` from `main.py`: on request failure shows a
streamlit error and returns `[]`; on success takes the first three
characters of every feature's `site_code` and returns the sorted set. -/
def list_countries (r : Resp) : Except Err (List String) × List Effect :=
  match r with
  | .failure => (.ok [], [.stError "Failed to fetch data"])
  | .success body =>
    match siteCodeList (body.features?.getD []) with
    | .error e => (.error e, [])
    | .ok codes => (.ok (pySortedSet (codes.map pyTake3)), [])

/-- The quoting `f"'{code}'"` in `query_points` (0x27 is the single
quote). -/
def quoteCode (code : String) : String := "\x27" ++ code ++ "\x27"

/-- The `where_clause` string built by `query_points`:
`f"iso3='{country_code}' AND pcode NOT IN ({','.join(site_codes_quoted)})"`. -/
def wherePoints (country_code : String) (site_codes : List String) : String :=
  "iso3=\x27" ++ country_code ++ "\x27 AND pcode NOT IN (" ++
    String.intercalate "," (site_codes.map quoteCode) ++ ")"

/-- The loop in `query_points` adding
`properties['prefixed_gis_name'] = "POINT_" + properties['gis_name']` to
every feature; raises `KeyError` when a feature lacks `gis_name`. -/
def addPointNames : List Feature → Except Err (List Feature)
  | [] => .ok []
  | f :: rest =>
    match dget f.properties "gis_name" with
    | none => .error (.keyError "gis_name")
    | some v =>
      match addPointNames rest with
      | .error e => .error e
      | .ok fs =>
        .ok ({ f with properties := dset f.properties "prefixed_gis_name" ("POINT_" ++ v) } :: fs)

/-- `query_points` from `main.py`: the service's reply to the query with
filter `wherePoints country_code site_codes` is the oracle `r`.  On
request failure it prints to the console (not a streamlit widget) and
returns the empty dict (`none`); on success it subscripts
`data["features"]` (KeyError if absent), derives `prefixed_gis_name` for
each feature, and tags the dict with `feature_type = "Point"`. -/
def query_points (country_code : String) (site_codes : List String) (r : Resp) :
    Except Err (Option FC) × List Effect :=
  match r with
  | .failure => (.ok none, [.consolePrint "Failed to fetch data"])
  | .success body =>
    match body.features? with
    | none => (.error (.keyError "features"), [])
    | some fs =>
      match addPointNames fs with
      | .error e => (.error e, [])
      | .ok fs2 => (.ok (some { features? := some fs2, feature_type := some "Point" }), [])

/-- `query_polygons` from `main.py`: on request failure shows a
streamlit error and returns the empty dict (`none`); on success tags the
body with `feature_type = "Polygon"` and returns it (it never
subscripts the body, so it cannot raise). -/
def query_polygons (country_code : String) (r : Resp) : Option FC × List Effect :=
  match r with
  | .failure => (none, [.stError "Failed to fetch data"])
  | .success body => (some { body with feature_type := some "Polygon" }, [])

/-! ## Geometry buffering engine (`gen_polygons`) -/

/-- `gen_polygons` from `main.py`: buffers each feature's geometry.  The
shapely call `mapping(Point(coords).buffer(buffer_size))` is a library
external to the repository; it is abstracted as the parameter
`bufferFn`.  Each output feature reuses the input feature's `properties`
object unchanged. -/
def gen_polygons (bufferFn : Geometry → ℚ → Geometry) (data : FC) (buffer_size : ℚ) : FC :=
  let features := data.features?.getD []
  let buffered_features := features.map
    (fun f => { geometry := bufferFn f.geometry buffer_size, properties := f.properties })
  { features? := some buffered_features, feature_type := none }

/-! ## Country processing pipeline (`process_country`) -/

/-- `feature['properties']['feature_type'] = ft`, the tagging loop bodies
in `process_country`. -/
def tag_feature (ft : String) (f : Feature) : Feature :=
  { f with properties := dset f.properties "feature_type" ft }

/-- What a `process_country` run produces: its return value, whether the
point query was ever issued, and the side effects in order. -/
structure ProcOut where
  result : Option FC
  pointQueried : Bool
  effects : List Effect
deriving DecidableEq

/-- `process_country` from `main.py`, over the two service replies
(`polyResp` for the polygon query, `pointResp` for the point query). -/
def process_country (bufferFn : Geometry → ℚ → Geometry) (country_code : String)
    (polyResp pointResp : Resp) (buffer_size_points : ℚ) : Except Err ProcOut :=
  let qp := query_polygons country_code polyResp
  match qp.1 with
  | none =>
    .ok { result := none, pointQueried := false,
          effects := qp.2 ++ [.consolePrint "No data found for the country"] }
  | some official_polygons =>
    match official_polygons.features? with
    | none => .error (.keyError "features")
    | some ofs =>
      let e2 := qp.2 ++
        [.consolePrint ("Successfully fetched " ++ toString ofs.length ++ " official polygons")]
      let ofsTagged := ofs.map (tag_feature "Official Polygon")
      match extract_site_codes { official_polygons with features? := some ofsTagged } with
      | .error e => .error e
      | .ok site_codes =>
        let qpts := query_points country_code site_codes pointResp
        match qpts.1 with
        | .error e => .error e
        | .ok points_data =>
          let e3 := e2 ++ qpts.2
          match points_data with
          | none =>
            .ok { result := some { official_polygons with features? := some ofsTagged },
                  pointQueried := true,
                  effects := e3 ++ [.consolePrint "No points data found"] }
          | some pts =>
            match pts.features?.getD [] with
            | [] =>
              .ok { result := some { official_polygons with features? := some ofsTagged },
                    pointQueried := true,
                    effects := e3 ++ [.consolePrint "No points data found"] }
            | p :: ps =>
              let e4 := e3 ++
                [.consolePrint ("Successfully fetched " ++ toString (p :: ps).length ++ " points")]
              let generated_polygons := gen_polygons bufferFn pts buffer_size_points
              let genTagged := (generated_polygons.features?.getD []).map
                (tag_feature "Generated Polygon")
              .ok { result := some { features? := some (ofsTagged ++ genTagged),
                                     feature_type := none },
                    pointQueried := true,
                    effects := e4 }

/-! ## Claim C2 -/

/-- Recognizes Point geometries (the precondition of `gen_polygons`). -/
def Geometry.isPoint : Geometry → Bool
  | .point _ => true
  | _ => false

/-! ## Claim C3: property-key renaming -/

/-- The display renaming (module level, lines 247-251): `pcode →
site_code`, then `gis_name → name`, each only when the source key is
present. -/
def display_rename_props (p : Props) : Props :=
  renameKey (renameKey p "pcode" "site_code") "gis_name" "name"

/-- The export renaming (module level, lines 272-276): `site_code →
pcode`, then `name → gis_name`, each only when the source key is
present. -/
def export_rename_props (p : Props) : Props :=
  renameKey (renameKey p "site_code" "pcode") "name" "gis_name"

/-- Feature-level display renaming. -/
def display_rename_feature (f : Feature) : Feature :=
  { f with properties := display_rename_props f.properties }

/-- Feature-level export renaming. -/
def export_rename_feature (f : Feature) : Feature :=
  { f with properties := export_rename_props f.properties }

/-- The effect of `query_points`' prefixing loop on one feature. -/
def withPointName (f : Feature) : Feature :=
  { f with
    properties := dset f.properties "prefixed_gis_name" ("POINT_" ++ ((dget f.properties "gis_name").getD "")) }

/-! ## Interactive layer: labels, selection, export block -/

/-- Python `props.get(k, d)`. -/
def pyGetD (p : Props) (k d : String) : String := (dget p k).getD d

/-- The display label built at line 213:
`f"{site_code} - {name} ({feature_type})"` with `'N/A'` fallbacks. -/
def label_of (f : Feature) : String :=
  pyGetD f.properties "site_code" "N/A" ++ " - " ++ pyGetD f.properties "name" "N/A" ++
    " (" ++ pyGetD f.properties "feature_type" "N/A" ++ ")"

/-- `feature_labels` (line 213), computed before the display renaming. -/
def feature_labels (fs : List Feature) : List String := fs.map label_of

/-- Line 218: `next(feature for feature, label in
zip(feature_options, feature_labels) if label == selected_label)` —
`none` models the `StopIteration` case. -/
def selected_feature (fs : List Feature) (selected_label : String) : Option Feature :=
  ((fs.zip (feature_labels fs)).find? (fun fl => fl.2 == selected_label)).map (fun fl => fl.1)

/-- The display renaming loop (lines 247-251) over the feature list. -/
def display_rename_all (fs : List Feature) : List Feature :=
  fs.map display_rename_feature

/-- The export block (lines 261-287).  `renamedFs` is `feature_options`
as it stands at line 261 (after the display renaming); `labels` is
`feature_labels`, computed at line 213 before the renaming.  Returns
the document written to disk (`none` when nothing is written) and the
side effects. -/
def export_block (country_code : String) (selected : List String)
    (renamedFs : List Feature) (labels : List String) : Option FC × List Effect :=
  if selected.isEmpty then
    (none, [.stError "No feature selected. Please select at least one feature."])
  else
    let filtered_features := ((renamedFs.zip labels).filter
      (fun fl => selected.contains fl.2)).map (fun fl => fl.1)
    let filtered := filtered_features.map export_rename_feature
    let path := "data/" ++ country_code ++ "_filtered_polygons.geojson"
    (some { features? := some filtered, feature_type := none },
     [.stSuccess ("Exported " ++ toString filtered.length ++ " features to " ++ path),
      .fileWrite path])

/-- Whether an effect list contains a file write. -/
def writes_file (effs : List Effect) : Bool :=
  effs.any (fun e => match e with
    | .fileWrite _ => true
    | _ => false)

/-! ## Theorems -/

@[simp] theorem dget_nil (j : String) : dget [] j = none := rfl

@[simp] theorem dcontains_nil (j : String) : dcontains [] j = false := rfl

@[simp] theorem dget_cons (kv : String × String) (rest : Props) (j : String) :
    dget (kv :: rest) j = if kv.1 = j then some kv.2 else dget rest j := by
  by_cases h : kv.1 = j
  · simp [dget, List.find?, h]
  · have hb : (kv.1 == j) = false := by simp [h]
    simp [dget, List.find?, hb, h]

@[simp] theorem dcontains_cons (kv : String × String) (rest : Props) (j : String) :
    dcontains (kv :: rest) j = if kv.1 = j then true else dcontains rest j := by
  by_cases h : kv.1 = j <;> simp [dcontains, h]

theorem dcontains_eq_isSome_dget (p : Props) (k : String) :
    dcontains p k = (dget p k).isSome := by
  induction p with
  | nil => rfl
  | cons kv rest ih => by_cases h : kv.1 = k <;> simp [h, ih]

theorem dget_eq_none_of_not_contains (p : Props) (k : String)
    (h : dcontains p k = false) : dget p k = none := by
  rw [dcontains_eq_isSome_dget] at h
  exact Option.not_isSome_iff_eq_none.mp (by simp [h])

theorem dget_map_update (p : Props) (k v j : String) :
    dget (p.map (fun kv => if kv.1 = k then (k, v) else kv)) j =
      if j = k then (if dcontains p k then some v else none) else dget p j := by
  induction p with
  | nil => by_cases hj : j = k <;> simp [hj]
  | cons kv rest ih =>
    by_cases hk : kv.1 = k
    · by_cases hj : j = k
      · subst hj
        simp [List.map_cons, hk, ih]
      · have hkj : ¬ (k = j) := fun h => hj h.symm
        have hkj2 : ¬ (kv.1 = j) := by rw [hk]; exact hkj
        simp only [List.map_cons, if_pos hk, dget_cons, if_neg hkj, if_neg hkj2, if_neg hj] at ih ⊢
        simpa [hj] using ih
    · by_cases hj : kv.1 = j
      · have hjk : ¬ (j = k) := fun h => hk (hj.trans h)
        simp [List.map_cons, hk, hj, hjk]
      · simp only [List.map_cons, if_neg hk, dget_cons, if_neg hj, dcontains_cons] at ih ⊢
        simp [hk, ih]

theorem dget_append_single (p : Props) (k v j : String) :
    dcontains p k = false →
    dget (p ++ [(k, v)]) j = if j = k then some v else dget p j := by
  induction p with
  | nil =>
    intro _
    by_cases hj : j = k
    · simp [hj]
    · have hkj : ¬ (k = j) := fun h => hj h.symm
      simp [hj, hkj]
  | cons kv rest ih =>
    intro hc
    by_cases hj : kv.1 = j
    · have hjk : ¬ (j = k) := by
        intro h
        rw [dcontains_cons, if_pos (hj.trans h)] at hc
        simp at hc
      simp [hj, hjk]
    · have hc' : dcontains rest k = false := by
        by_cases hk : kv.1 = k
        · rw [dcontains_cons, if_pos hk] at hc; exact absurd hc (by simp)
        · rwa [dcontains_cons, if_neg hk] at hc
      simp only [List.cons_append, dget_cons, if_neg hj]
      rw [ih hc']

theorem dget_dset (p : Props) (k v j : String) :
    dget (dset p k v) j = if j = k then some v else dget p j := by
  by_cases hc : dcontains p k
  · rw [dset, if_pos hc, dget_map_update]
    by_cases hj : j = k <;> simp [hj, hc]
  · rw [dset, if_neg hc]
    exact dget_append_single p k v j (by simpa using hc)

theorem dget_derase (p : Props) (k j : String) :
    dget (derase p k) j = if j = k then none else dget p j := by
  induction p with
  | nil => by_cases hj : j = k <;> simp [derase, hj]
  | cons kv rest ih =>
    by_cases hk : kv.1 = k
    · have hb : (kv.1 != k) = false := by simp [hk]
      by_cases hj : j = k
      · subst hj
        simp only [derase, List.filter_cons, hb] at ih ⊢
        simp at ih ⊢
        exact ih
      · have h2 : ¬ (kv.1 = j) := by rw [hk]; exact fun h => hj h.symm
        simp only [derase, List.filter_cons, hb] at ih ⊢
        simpa [hj, h2] using ih
    · have hb : (kv.1 != k) = true := by simp [hk]
      by_cases hj : kv.1 = j
      · by_cases hjk : j = k
        · exact absurd (hj.trans hjk) hk
        · simp [derase, List.filter_cons, hb, hj, hjk]
      · simp only [derase, List.filter_cons, hb] at ih ⊢
        simpa [hj] using ih

theorem dcontains_dset (p : Props) (k v j : String) :
    dcontains (dset p k v) j = if j = k then true else dcontains p j := by
  rw [dcontains_eq_isSome_dget, dget_dset, dcontains_eq_isSome_dget]
  by_cases hj : j = k <;> simp [hj]

theorem dcontains_derase (p : Props) (k j : String) :
    dcontains (derase p k) j = if j = k then false else dcontains p j := by
  rw [dcontains_eq_isSome_dget, dget_derase, dcontains_eq_isSome_dget]
  by_cases hj : j = k <;> simp [hj]

/-- Key fact about one rename step: the lookup table after
`renameKey p old new`, for `old ≠ new`. -/
theorem dget_renameKey (p : Props) (old new j : String) (hne : old ≠ new) :
    dget (renameKey p old new) j =
      if j = old then none
      else if j = new then (if dcontains p old then dget p old else dget p new)
      else dget p j := by
  have hno2 : ¬ (new = old) := fun h => hne h.symm
  by_cases hc : dcontains p old
  · rcases Option.isSome_iff_exists.mp (by rw [← dcontains_eq_isSome_dget]; exact hc) with ⟨v, hv⟩
    rw [renameKey, if_pos hc, hv, dget_dset, dget_derase]
    by_cases h1 : j = old
    · subst h1
      have hno : ¬ (j = new) := fun h => hne (h ▸ rfl)
      simp [hno, hc]
    · by_cases h2 : j = new <;> simp [h1, h2, hc, hv, hno2]
  · rw [renameKey, if_neg hc]
    have hnone := dget_eq_none_of_not_contains p old (by simpa using hc)
    by_cases h1 : j = old
    · subst h1; simp [hnone, hc]
    · by_cases h2 : j = new <;> simp [h1, h2, hc, hno2]

theorem dcontains_renameKey (p : Props) (old new j : String) (hne : old ≠ new) :
    dcontains (renameKey p old new) j =
      if j = old then false
      else if j = new then (dcontains p old || dcontains p new)
      else dcontains p j := by
  have hno2 : ¬ (new = old) := fun h => hne h.symm
  rw [dcontains_eq_isSome_dget, dget_renameKey p old new j hne]
  by_cases h1 : j = old
  · simp [h1]
  · by_cases h2 : j = new
    · by_cases hc : dcontains p old <;>
        simp [h1, h2, hc, hno2, ← dcontains_eq_isSome_dget]
    · simp [h1, h2, ← dcontains_eq_isSome_dget]

/-- A rename step whose source key is absent is the identity. -/
theorem renameKey_of_not_contains (p : Props) (old new : String)
    (h : dcontains p old = false) : renameKey p old new = p := by
  rw [renameKey, if_neg (by simp [h])]

/-! ## Claim C1 -/

/-- C1 counterexample: with a polygon service that responds successfully
with zero features (and a failing point service), `process_country`
does not report "no data" and does not terminate with no result — it
proceeds, invokes the point query (`pointQueried = true`), and returns
the (empty) official polygon collection (`result ≠ none`). -/
theorem c1_counterexample :
    process_country (fun _ _ => Geometry.polygon []) "ABC"
        (Resp.success { features? := some [], feature_type := none }) Resp.failure 1 =
      Except.ok { result := some { features? := some [], feature_type := some "Polygon" },
                  pointQueried := true,
                  effects := [Effect.consolePrint "Successfully fetched 0 official polygons",
                              Effect.consolePrint "Failed to fetch data",
                              Effect.consolePrint "No points data found"] } := rfl

/-- C1 (amended): `process_country` reports "no data" and terminates
with no result, without ever invoking the point query, exactly when
`query_polygons` hands it an empty (falsy) dict — which happens only
when the polygon request fails (`Resp.failure`), not when the service
responds successfully with zero features (the returned dict is then
non-empty, hence truthy, and the pipeline continues). -/
theorem c1_amended_theorem (bufferFn : Geometry → ℚ → Geometry)
    (country_code : String) (pointResp : Resp) (buffer_size : ℚ) :
    process_country bufferFn country_code Resp.failure pointResp buffer_size =
      Except.ok { result := none, pointQueried := false,
                  effects := [Effect.stError "Failed to fetch data",
                              Effect.consolePrint "No data found for the country"] } := rfl

/-- C2: for every point-feature collection and positive radius,
`gen_polygons` returns one polygon feature per input feature, in the
same order, and the i-th output feature's properties mapping is the
i-th input feature's properties mapping (the code reuses the very same
`properties` object). -/
theorem c2_theorem (bufferFn : Geometry → ℚ → Geometry) (data : FC) (r : ℚ)
    (hpoints : ∀ f ∈ data.features?.getD [], f.geometry.isPoint = true)
    (hr : 0 < r) :
    ((gen_polygons bufferFn data r).features?.getD []).length =
        (data.features?.getD []).length ∧
    ∀ i : Nat, (((gen_polygons bufferFn data r).features?.getD [])[i]?.map Feature.properties) =
        ((data.features?.getD [])[i]?.map Feature.properties) := by
  constructor
  · simp [gen_polygons]
  · intro i
    simp [gen_polygons]
    cases h : (data.features?.getD [])[i]? <;> simp [h]

/-- C2 witness: a concrete two-point collection and radius 1/100. -/
theorem c2_witness :
    (((gen_polygons (fun _ _ => Geometry.polygon []) 
        { features? := some [{ geometry := Geometry.point [1, 2], properties := [("pcode", "ABC001")] },
                              { geometry := Geometry.point [3, 4], properties := [("pcode", "ABC002")] }],
          feature_type := none } (1/100)).features?.getD []).length = 2) ∧
    ((((gen_polygons (fun _ _ => Geometry.polygon [])
        { features? := some [{ geometry := Geometry.point [1, 2], properties := [("pcode", "ABC001")] },
                              { geometry := Geometry.point [3, 4], properties := [("pcode", "ABC002")] }],
          feature_type := none } (1/100)).features?.getD [])[0]?.map Feature.properties) =
        some [("pcode", "ABC001")]) := by
  have h := c2_theorem (fun _ _ => Geometry.polygon [])
    { features? := some [{ geometry := Geometry.point [1, 2], properties := [("pcode", "ABC001")] },
                         { geometry := Geometry.point [3, 4], properties := [("pcode", "ABC002")] }],
      feature_type := none } (1/100)
    (by intro f hf; fin_cases hf <;> rfl) (by norm_num)
  refine ⟨h.1.trans rfl, (h.2 0).trans rfl⟩

theorem display_rename_noop (p : Props)
    (hp : dcontains p "pcode" = false) (hg : dcontains p "gis_name" = false) :
    display_rename_props p = p := by
  rw [display_rename_props, renameKey_of_not_contains p _ _ hp,
    renameKey_of_not_contains p _ _ hg]

theorem export_rename_noop (p : Props)
    (hs : dcontains p "site_code" = false) (hn : dcontains p "name" = false) :
    export_rename_props p = p := by
  rw [export_rename_props, renameKey_of_not_contains p _ _ hs,
    renameKey_of_not_contains p _ _ hn]

theorem export_removes_display_keys (q : Props) :
    dcontains (export_rename_props q) "site_code" = false ∧
    dcontains (export_rename_props q) "name" = false := by
  constructor <;> simp [export_rename_props, dcontains_renameKey]

theorem rename_roundtrip_equiv (p : Props)
    (hsc : dcontains p "site_code" = false)
    (hn : dcontains p "name" = false) :
    propsEquiv (export_rename_props (display_rename_props p)) p := by
  have hscn := dget_eq_none_of_not_contains p "site_code" hsc
  have hnn := dget_eq_none_of_not_contains p "name" hn
  intro j
  by_cases cp : dcontains p "pcode" <;> by_cases cg : dcontains p "gis_name" <;>
    · simp only [export_rename_props, display_rename_props]
      simp [dget_renameKey, dcontains_renameKey, hsc, hn, hscn, hnn, cp, cg]
      split_ifs <;>
        simp_all [dget_eq_none_of_not_contains]

/-- C3 counterexample: for the feature whose properties are
`{site_code: "B"}` (display-form key present, wire-form key absent), the
display rename is a no-op but the export rename still fires, so the
round trip turns `site_code` into `pcode` and the resulting mapping is
not equal to the original — the key `site_code` is lost. -/
theorem c3_counterexample :
    dget (export_rename_props (display_rename_props [("site_code", "B")])) "site_code" ≠
      dget [("site_code", "B")] "site_code" := by decide

/-- C3 (amended): the display-then-export rename round trip restores the
original properties mapping key-for-key for every feature whose
properties contain neither display-form key (`site_code`, `name`); each
rename is a no-op when its own source keys are absent; and the round
trip is idempotent under repeated invocation (for every feature).  It is
not an involution on features that already carry `site_code` or `name`
(see the counterexample). -/
theorem c3_theorem (p : Props) :
    (dcontains p "site_code" = false → dcontains p "name" = false →
        propsEquiv (export_rename_props (display_rename_props p)) p) ∧
    (dcontains p "pcode" = false → dcontains p "gis_name" = false →
        display_rename_props p = p) ∧
    (dcontains p "site_code" = false → dcontains p "name" = false →
        export_rename_props p = p) ∧
    propsEquiv
      (export_rename_props (display_rename_props
        (export_rename_props (display_rename_props p))))
      (export_rename_props (display_rename_props p)) := by
  refine ⟨fun hsc hn => rename_roundtrip_equiv p hsc hn,
          fun hp hg => display_rename_noop p hp hg,
          fun hs hn => export_rename_noop p hs hn, ?_⟩
  exact rename_roundtrip_equiv _ (export_removes_display_keys _).1
    (export_removes_display_keys _).2

/-- C3 witness: the round trip restores `{pcode: "a", gis_name: "g"}`
(a wire-form feature), whose display-form keys are absent. -/
theorem c3_witness :
    propsEquiv
      (export_rename_props (display_rename_props [("pcode", "a"), ("gis_name", "g")]))
      [("pcode", "a"), ("gis_name", "g")] :=
  (c3_theorem [("pcode", "a"), ("gis_name", "g")]).1 (by decide) (by decide)

/-! ## Claim C4: the point-query filter clause -/

/-- C4 (code evaluation at the failing input): with an empty exclusion
set, `query_points` builds the filter string
`iso3='ABC' AND pcode NOT IN ()` — a `NOT IN` clause with an empty value
list, which is malformed (an SQL-style IN list must be nonempty); the
code has no guard omitting or fixing the clause when the exclusion set
is empty. -/
theorem c4_eval :
    wherePoints "ABC" [] = "iso3=\x27ABC\x27 AND pcode NOT IN ()" := rfl

/-! ## Claim C5: the client boundary -/

/-- C5 counterexample: a successful response whose single feature lacks
the `site_code` property makes `list_countries` raise `KeyError` past
its boundary (no empty result, no warning surfaced), so the client
boundary does not catch every failure. -/
theorem c5_counterexample :
    list_countries (Resp.success
        { features? := some [{ geometry := Geometry.point [], properties := [] }],
          feature_type := none }) =
      (Except.error (Err.keyError "site_code"), []) := rfl

/-- C5 (amended): transport/HTTP failures (`requests.RequestException`)
are always caught at the client boundary and converted to an empty
result; `list_countries` and `query_polygons` additionally surface a
user-visible streamlit error, while `query_points` only prints the
warning to the console.  Successful responses with features missing
expected keys are not covered: they raise `KeyError` past the boundary
(see the counterexample). -/
theorem c5_amended_theorem (country_code : String) (site_codes : List String) :
    list_countries Resp.failure =
      (Except.ok [], [Effect.stError "Failed to fetch data"]) ∧
    query_polygons country_code Resp.failure =
      (none, [Effect.stError "Failed to fetch data"]) ∧
    query_points country_code site_codes Resp.failure =
      (Except.ok none, [Effect.consolePrint "Failed to fetch data"]) :=
  ⟨rfl, rfl, rfl⟩

/-! ## Claim C7: `list_countries` -/

theorem siteCodeList_ok (fs : List Feature)
    (hall : ∀ f ∈ fs, (dget f.properties "site_code").isSome) :
    siteCodeList fs = .ok (fs.filterMap (fun f => dget f.properties "site_code")) := by
  induction fs with
  | nil => rfl
  | cons f rest ih =>
    rcases Option.isSome_iff_exists.mp (hall f (by simp)) with ⟨v, hv⟩
    have hrest := ih (fun g hg => hall g (by simp [hg]))
    simp [siteCodeList, hv, hrest, List.filterMap_cons]

theorem pyTake3_length (s : String) : (pyTake3 s).length = min 3 s.length := by
  have htl : s.toList.length = s.length := rfl
  simp [pyTake3, List.length_take, htl]

/-- C7 counterexample: a service response whose single feature has the
two-character site code `"AB"` yields the country list `["AB"]`, whose
entry has length 2, not 3 — python's `[:3]` slice does not pad short
strings. -/
theorem c7_counterexample :
    (list_countries (Resp.success
        { features? := some [{ geometry := Geometry.point [],
                               properties := [("site_code", "AB")] }],
          feature_type := none })).1 = Except.ok ["AB"] ∧
    "AB".length ≠ 3 := ⟨rfl, by decide⟩

/-- C7 (amended): on a successful response whose features all carry a
`site_code`, `list_countries` returns the sorted deduplicated list of
the first-3-character prefixes of the site codes: the result has no
duplicates, is sorted, and every entry has length at most 3 — with
length exactly 3 whenever every site code has at least 3 characters
(python's `[:3]` returns shorter strings unchanged). -/
theorem c7_theorem (fs : List Feature) (t : Option String)
    (hall : ∀ f ∈ fs, (dget f.properties "site_code").isSome) :
    ∃ cs, (list_countries (Resp.success { features? := some fs, feature_type := t })).1 =
        Except.ok cs ∧
      cs.Nodup ∧
      List.Sorted (fun a b : String => a ≤ b) cs ∧
      (∀ s ∈ cs, s.length ≤ 3) ∧
      ((∀ f ∈ fs, ∀ v, dget f.properties "site_code" = some v → 3 ≤ v.length) →
        ∀ s ∈ cs, s.length = 3) := by
  refine ⟨pySortedSet ((fs.filterMap (fun f => dget f.properties "site_code")).map pyTake3),
    ?_, ?_, ?_, ?_, ?_⟩
  · simp [list_countries, siteCodeList_ok fs hall]
  · rw [pySortedSet]
    exact (List.perm_insertionSort _ _).nodup_iff.mpr (List.nodup_dedup _)
  · exact List.sorted_insertionSort _ _
  · intro s hs
    rw [pySortedSet, (List.perm_insertionSort _ _).mem_iff, List.mem_dedup] at hs
    rcases List.mem_map.mp hs with ⟨c, _, rfl⟩
    rw [pyTake3_length]
    exact min_le_left _ _
  · intro hlong s hs
    rw [pySortedSet, (List.perm_insertionSort _ _).mem_iff, List.mem_dedup] at hs
    rcases List.mem_map.mp hs with ⟨c, hc, rfl⟩
    rcases List.mem_filterMap.mp hc with ⟨f, hf, hfc⟩
    rw [pyTake3_length]
    exact min_eq_left (hlong f hf c hfc)

/-- C7 witness: a concrete response with duplicate and distinct site
codes of full length. -/
theorem c7_witness :
    ∃ cs, (list_countries (Resp.success
        { features? := some
            [{ geometry := Geometry.point [], properties := [("site_code", "ABC001")] },
             { geometry := Geometry.point [], properties := [("site_code", "ABC002")] },
             { geometry := Geometry.point [], properties := [("site_code", "ZWE001")] }],
          feature_type := none })).1 = Except.ok cs ∧
      cs.Nodup ∧
      List.Sorted (fun a b : String => a ≤ b) cs ∧
      (∀ s ∈ cs, s.length ≤ 3) ∧
      ((∀ f ∈ [{ geometry := Geometry.point [], properties := [("site_code", "ABC001")] },
               { geometry := Geometry.point [], properties := [("site_code", "ABC002")] },
               { geometry := Geometry.point [], properties := [("site_code", "ZWE001")] }],
          ∀ v, dget (Feature.properties f) "site_code" = some v → 3 ≤ v.length) →
        ∀ s ∈ cs, s.length = 3) :=
  c7_theorem
    [{ geometry := Geometry.point [], properties := [("site_code", "ABC001")] },
     { geometry := Geometry.point [], properties := [("site_code", "ABC002")] },
     { geometry := Geometry.point [], properties := [("site_code", "ZWE001")] }]
    none (by intro f hf; fin_cases hf <;> decide)

/-! ## Claims C8 and C9: the pipeline's merge behaviour -/

theorem dget_tag_feature (ft : String) (f : Feature) (k : String)
    (hk : k ≠ "feature_type") :
    dget (tag_feature ft f).properties k = dget f.properties k := by
  simp [tag_feature, dget_dset, hk]

theorem addPointNames_ok (fs : List Feature)
    (hall : ∀ f ∈ fs, (dget f.properties "gis_name").isSome) :
    addPointNames fs = .ok (fs.map withPointName) := by
  induction fs with
  | nil => rfl
  | cons f rest ih =>
    rcases Option.isSome_iff_exists.mp (hall f (by simp)) with ⟨v, hv⟩
    have hrest := ih (fun g hg => hall g (by simp [hg]))
    simp [addPointNames, hv, hrest, withPointName]

theorem tagged_siteCodeList_ok (fs : List Feature)
    (hsc : ∀ f ∈ fs, (dget f.properties "site_code").isSome) :
    siteCodeList (fs.map (tag_feature "Official Polygon")) =
      .ok ((fs.map (tag_feature "Official Polygon")).filterMap
        (fun f => dget f.properties "site_code")) := by
  apply siteCodeList_ok
  intro g hg
  rcases List.mem_map.mp hg with ⟨f, hf, rfl⟩
  rw [dget_tag_feature _ _ _ (by decide)]
  exact hsc f hf

/-- C8: when the polygon fetch succeeds (features present, each with a
site code) and the point fetch yields an empty result — request failure
or a success with zero features — `process_country` returns the tagged
official polygons alone: not an error and not an empty (`none`)
result. -/
theorem c8_theorem (bufferFn : Geometry → ℚ → Geometry) (country_code : String)
    (fs : List Feature) (t : Option String) (pointResp : Resp) (r : ℚ)
    (hsc : ∀ f ∈ fs, (dget f.properties "site_code").isSome)
    (hpt : pointResp = Resp.failure ∨
      ∃ t2, pointResp = Resp.success { features? := some [], feature_type := t2 }) :
    ∃ effs, process_country bufferFn country_code
        (Resp.success { features? := some fs, feature_type := t }) pointResp r =
      Except.ok { result := some { features? := some (fs.map (tag_feature "Official Polygon")),
                                   feature_type := some "Polygon" },
                  pointQueried := true,
                  effects := effs } := by
  have hok := tagged_siteCodeList_ok fs hsc
  rcases hpt with h | ⟨t2, h⟩ <;> subst h
  · refine ⟨[Effect.consolePrint
        ("Successfully fetched " ++ toString fs.length ++ " official polygons"),
      Effect.consolePrint "Failed to fetch data",
      Effect.consolePrint "No points data found"], ?_⟩
    simp [process_country, query_polygons, query_points, extract_site_codes, hok]
  · refine ⟨[Effect.consolePrint
        ("Successfully fetched " ++ toString fs.length ++ " official polygons"),
      Effect.consolePrint "No points data found"], ?_⟩
    simp [process_country, query_polygons, query_points, extract_site_codes, hok,
      addPointNames]

/-- C8 witness: one official polygon, failing point service. -/
theorem c8_witness :
    ∃ effs, process_country (fun _ _ => Geometry.polygon []) "ABC"
        (Resp.success
          { features? :=
              some [{ geometry := Geometry.polygon [], properties := [("site_code", "ABC001")] }],
            feature_type := none }) Resp.failure 1 =
      Except.ok
        { result :=
            some { features? :=
                     some ([{ geometry := Geometry.polygon [],
                              properties := [("site_code", "ABC001")] }].map
                       (tag_feature "Official Polygon")),
                   feature_type := some "Polygon" },
          pointQueried := true,
          effects := effs } :=
  c8_theorem (fun _ _ => Geometry.polygon []) "ABC"
    [{ geometry := Geometry.polygon [], properties := [("site_code", "ABC001")] }]
    none Resp.failure 1 (by intro f hf; fin_cases hf <;> decide) (Or.inl rfl)

/-- C9: on a fully successful run (official polygons present, each with
a site code; point fetch successful with a nonempty feature list, each
point carrying a `gis_name`), `process_country` returns the
concatenation of the official polygon features — in service order, each
tagged `feature_type = "Official Polygon"` — followed by the generated
buffered features — one per point, in service order, each carrying the
point's (prefixed) properties and tagged
`feature_type = "Generated Polygon"`. -/
theorem c9_theorem (bufferFn : Geometry → ℚ → Geometry) (country_code : String)
    (fs : List Feature) (t : Option String) (p : Feature) (ps : List Feature)
    (t2 : Option String) (r : ℚ)
    (hsc : ∀ f ∈ fs, (dget f.properties "site_code").isSome)
    (hgis : ∀ f ∈ p :: ps, (dget f.properties "gis_name").isSome) :
    ∃ effs, process_country bufferFn country_code
        (Resp.success { features? := some fs, feature_type := t })
        (Resp.success { features? := some (p :: ps), feature_type := t2 }) r =
      Except.ok
        { result :=
            some { features? :=
                     some (fs.map (tag_feature "Official Polygon") ++
                       (p :: ps).map (fun f =>
                         tag_feature "Generated Polygon"
                           { geometry := bufferFn f.geometry r,
                             properties := (withPointName f).properties })),
                   feature_type := none },
          pointQueried := true,
          effects := effs } := by
  have hok := tagged_siteCodeList_ok fs hsc
  have hpn := addPointNames_ok (p :: ps) hgis
  refine ⟨[Effect.consolePrint
        ("Successfully fetched " ++ toString fs.length ++ " official polygons"),
      Effect.consolePrint
        ("Successfully fetched " ++ toString (p :: ps).length ++ " points")], ?_⟩
  simp [process_country, query_polygons, query_points, extract_site_codes, hok, hpn,
    gen_polygons, withPointName, Function.comp]

/-- C9 witness: one official polygon and one point. -/
theorem c9_witness :
    ∃ effs, process_country (fun _ _ => Geometry.polygon []) "ABC"
        (Resp.success
          { features? :=
              some [{ geometry := Geometry.polygon [], properties := [("site_code", "ABC001")] }],
            feature_type := none })
        (Resp.success
          { features? :=
              some [{ geometry := Geometry.point [1, 2],
                      properties := [("pcode", "ABC900"), ("gis_name", "Site X")] }],
            feature_type := none }) (1/100) =
      Except.ok
        { result :=
            some { features? :=
                     some ([{ geometry := Geometry.polygon [],
                              properties := [("site_code", "ABC001")] }].map
                         (tag_feature "Official Polygon") ++
                       [{ geometry := Geometry.point [1, 2],
                          properties := [("pcode", "ABC900"), ("gis_name", "Site X")] }].map
                         (fun f =>
                           tag_feature "Generated Polygon"
                             { geometry := (fun _ _ => Geometry.polygon []) f.geometry (1/100 : ℚ),
                               properties := (withPointName f).properties })),
                   feature_type := none },
          pointQueried := true,
          effects := effs } :=
  c9_theorem (fun _ _ => Geometry.polygon []) "ABC"
    [{ geometry := Geometry.polygon [], properties := [("site_code", "ABC001")] }] none
    { geometry := Geometry.point [1, 2],
      properties := [("pcode", "ABC900"), ("gis_name", "Site X")] } [] none (1/100)
    (by intro f hf; fin_cases hf <;> decide)
    (by intro f hf; fin_cases hf <;> decide)

theorem contains_singleton_label (l x : String) : ([l].contains x) = (x == l) := by
  by_cases h : x = l <;> simp [h]

theorem export_block_fst (country_code : String) (sel : List String) (fs : List Feature)
    (hsel : sel ≠ []) :
    (export_block country_code sel (display_rename_all fs) (feature_labels fs)).1 =
      some { features? := some ((fs.filter (fun f => sel.contains (label_of f))).map
               (fun f => export_rename_feature (display_rename_feature f))),
             feature_type := none } := by
  have hni : sel.isEmpty = false := by
    cases sel with
    | nil => exact absurd rfl hsel
    | cons a as => rfl
  rw [export_block, if_neg (by simp [hni])]
  simp only [display_rename_all, feature_labels, List.zip_map', List.filter_map,
    List.map_map]
  rfl

theorem export_block_snd_writes (country_code : String) (sel : List String)
    (renamedFs : List Feature) (labels : List String) (hsel : sel ≠ []) :
    writes_file (export_block country_code sel renamedFs labels).2 = true := by
  have hni : sel.isEmpty = false := by
    cases sel with
    | nil => exact absurd rfl hsel
    | cons a as => rfl
  rw [export_block, if_neg (by simp [hni])]
  rfl

/-! ## Claim C10 -/

/-- C10: features are identified by their display label.  The viewer's
`next(...)` resolves a chosen label to the first feature whose label
matches it, and the export block writes exactly the features whose label
is among the selected labels (display-renamed then export-renamed, in
list order) — so when two features share a label, selecting that label
exports all of them. -/
theorem c10_theorem (fs : List Feature) (l : String) (sel : List String)
    (country_code : String) (hsel : sel ≠ []) :
    selected_feature fs l = (fs.filter (fun f => label_of f == l)).head? ∧
    (export_block country_code sel (display_rename_all fs) (feature_labels fs)).1 =
      some { features? := some ((fs.filter (fun f => sel.contains (label_of f))).map
               (fun f => export_rename_feature (display_rename_feature f))),
             feature_type := none } := by
  refine ⟨?_, export_block_fst country_code sel fs hsel⟩
  induction fs with
  | nil => rfl
  | cons f rest ih =>
    by_cases h : (label_of f == l) = true
    · simp only [selected_feature, feature_labels, List.map_cons, List.zip_cons_cons]
      rw [List.find?_cons_of_pos _ (by exact h)]
      simp [List.filter_cons, h]
    · have hb : (label_of f == l) = false := by simpa using h
      simp only [selected_feature, feature_labels, List.map_cons, List.zip_cons_cons] at ih ⊢
      rw [List.find?_cons_of_neg _ (by simp [hb])]
      rw [List.filter_cons]
      simp only [hb]
      simpa [selected_feature, feature_labels] using ih

/-- C10 witness: two distinct features sharing one display label; the
viewer picks the first, the export contains both. -/
theorem c10_witness :
    selected_feature
        [{ geometry := Geometry.polygon [], properties := [("site_code", "ABC001"), ("name", "X")] },
         { geometry := Geometry.polygon [[[1]]], properties := [("site_code", "ABC001"), ("name", "X")] }]
        "ABC001 - X (N/A)" =
      ([{ geometry := Geometry.polygon [], properties := [("site_code", "ABC001"), ("name", "X")] },
        { geometry := Geometry.polygon [[[1]]], properties := [("site_code", "ABC001"), ("name", "X")] }].filter
          (fun f => label_of f == "ABC001 - X (N/A)")).head? ∧
    (export_block "ABC" ["ABC001 - X (N/A)"]
        (display_rename_all
          [{ geometry := Geometry.polygon [], properties := [("site_code", "ABC001"), ("name", "X")] },
           { geometry := Geometry.polygon [[[1]]], properties := [("site_code", "ABC001"), ("name", "X")] }])
        (feature_labels
          [{ geometry := Geometry.polygon [], properties := [("site_code", "ABC001"), ("name", "X")] },
           { geometry := Geometry.polygon [[[1]]], properties := [("site_code", "ABC001"), ("name", "X")] }])).1 =
      some { features? := some
               (([{ geometry := Geometry.polygon [], properties := [("site_code", "ABC001"), ("name", "X")] },
                  { geometry := Geometry.polygon [[[1]]], properties := [("site_code", "ABC001"), ("name", "X")] }].filter
                   (fun f => ["ABC001 - X (N/A)"].contains (label_of f))).map
                 (fun f => export_rename_feature (display_rename_feature f))),
             feature_type := none } :=
  c10_theorem
    [{ geometry := Geometry.polygon [], properties := [("site_code", "ABC001"), ("name", "X")] },
     { geometry := Geometry.polygon [[[1]]], properties := [("site_code", "ABC001"), ("name", "X")] }]
    "ABC001 - X (N/A)" ["ABC001 - X (N/A)"] "ABC" (by decide)

/-! ## Claim C6 -/

theorem export_wire_form (p : Props)
    (hs : dcontains p "site_code" = true) (hn : dcontains p "name" = true) :
    dcontains (export_rename_props p) "pcode" = true ∧
    dcontains (export_rename_props p) "gis_name" = true := by
  constructor <;> simp [export_rename_props, dcontains_renameKey, hs, hn]

/-- C6: exporting with an empty selection surfaces a user-visible error
and writes no file; exporting with exactly one valid selection (one
selected label, matched by exactly one feature, that feature carrying
display-form keys as on screen) writes a document whose `features` array
has length 1 and whose single feature's properties use wire-form keys
(`pcode`, `gis_name`) and not display-form keys (`site_code`,
`name`). -/
theorem c6_theorem (country_code : String) (fs : List Feature) (l : String)
    (hone : (feature_labels fs).count l = 1)
    (hprops : ∀ f ∈ fs, label_of f = l →
      dcontains f.properties "site_code" = true ∧ dcontains f.properties "name" = true ∧
      dcontains f.properties "pcode" = false ∧ dcontains f.properties "gis_name" = false) :
    (export_block country_code [] (display_rename_all fs) (feature_labels fs) =
        (none, [Effect.stError "No feature selected. Please select at least one feature."]) ∧
      writes_file (export_block country_code [] (display_rename_all fs)
        (feature_labels fs)).2 = false) ∧
    ∃ doc effs,
      export_block country_code [l] (display_rename_all fs) (feature_labels fs) =
        (some doc, effs) ∧
      writes_file effs = true ∧
      (doc.features?.getD []).length = 1 ∧
      (∀ g ∈ doc.features?.getD [],
        dcontains g.properties "pcode" = true ∧ dcontains g.properties "gis_name" = true ∧
        dcontains g.properties "site_code" = false ∧ dcontains g.properties "name" = false) := by
  refine ⟨⟨rfl, rfl⟩, ?_⟩
  have hfst := export_block_fst country_code [l] fs (by simp)
  have hsnd := export_block_snd_writes country_code [l] (display_rename_all fs)
    (feature_labels fs) (by simp)
  refine ⟨{ features? := some ((fs.filter (fun f => [l].contains (label_of f))).map
              (fun f => export_rename_feature (display_rename_feature f))),
            feature_type := none },
    (export_block country_code [l] (display_rename_all fs) (feature_labels fs)).2,
    Prod.ext hfst rfl, hsnd, ?_, ?_⟩
  · have hpred : (fun f => [l].contains (label_of f)) = (fun f => label_of f == l) :=
      funext fun f => contains_singleton_label l (label_of f)
    simp only [Option.getD_some, List.length_map, hpred]
    rw [← List.countP_eq_length_filter]
    have : List.countP (fun f => label_of f == l) fs =
        List.countP (fun s => s == l) (feature_labels fs) := by
      rw [feature_labels, List.countP_map]
      rfl
    rw [this, ← List.count_eq_countP]
    exact hone
  · intro g hg
    simp only [Option.getD_some] at hg
    rcases List.mem_map.mp hg with ⟨f, hf, rfl⟩
    rcases List.mem_filter.mp hf with ⟨hffs, hlbl⟩
    have hleq : label_of f = l := by
      rw [contains_singleton_label] at hlbl
      exact eq_of_beq hlbl
    rcases hprops f hffs hleq with ⟨hs, hn, hpc, hgn⟩
    have hD : (display_rename_feature f).properties = f.properties := by
      simp [display_rename_feature, display_rename_noop f.properties hpc hgn]
    have hE : (export_rename_feature (display_rename_feature f)).properties =
        export_rename_props f.properties := by
      simp [export_rename_feature, hD]
    rw [hE]
    exact ⟨(export_wire_form _ hs hn).1, (export_wire_form _ hs hn).2,
      (export_removes_display_keys _).1, (export_removes_display_keys _).2⟩

/-- C6 witness: one on-screen feature with display-form keys, selected
by its label. -/
theorem c6_witness :
    (export_block "ABC" [] (display_rename_all
        [{ geometry := Geometry.polygon [], properties := [("site_code", "ABC001"), ("name", "X")] }])
        (feature_labels
          [{ geometry := Geometry.polygon [], properties := [("site_code", "ABC001"), ("name", "X")] }]) =
        (none, [Effect.stError "No feature selected. Please select at least one feature."]) ∧
      writes_file (export_block "ABC" [] (display_rename_all
        [{ geometry := Geometry.polygon [], properties := [("site_code", "ABC001"), ("name", "X")] }])
        (feature_labels
          [{ geometry := Geometry.polygon [], properties := [("site_code", "ABC001"), ("name", "X")] }])).2 = false) ∧
    ∃ doc effs,
      export_block "ABC" ["ABC001 - X (N/A)"] (display_rename_all
        [{ geometry := Geometry.polygon [], properties := [("site_code", "ABC001"), ("name", "X")] }])
        (feature_labels
          [{ geometry := Geometry.polygon [], properties := [("site_code", "ABC001"), ("name", "X")] }]) =
        (some doc, effs) ∧
      writes_file effs = true ∧
      (doc.features?.getD []).length = 1 ∧
      (∀ g ∈ doc.features?.getD [],
        dcontains g.properties "pcode" = true ∧ dcontains g.properties "gis_name" = true ∧
        dcontains g.properties "site_code" = false ∧ dcontains g.properties "name" = false) :=
  c6_theorem "ABC"
    [{ geometry := Geometry.polygon [], properties := [("site_code", "ABC001"), ("name", "X")] }]
    "ABC001 - X (N/A)" (by decide) (by decide)
